import Mathlib

/-!
Shallow embedding of the MfcOilAlert monitoring core.

The price monitor (`src/utils/price_monitor.py`) and the HTTP polling client
(`src/utils/http_client.py`) are translated into pure Lean functions.
Python floats are modelled as rationals (`ℚ`), Python ints as `ℤ`/`Nat`,
exceptions as `Except`, and the wall clock and network as explicit
parameters (`now : ℚ`, a `FetchOutcome` describing the HTTP response, and a
`hashFn` standing for the SHA-256 content fingerprint, of which only
determinism is used).
-/

/-- Model of `OilPriceData` from `price_parser.py` (fields used by the monitor). -/
structure OilPriceData where
  price : ℚ
  cycle : ℤ
  timestamp : Option String
deriving Repr, DecidableEq

/-- Model of the `PriceChangeEvent` dataclass of `price_monitor.py`. -/
structure PriceChangeEvent where
  timestamp : ℚ
  old_price : Option ℚ
  new_price : ℚ
  old_cycle : Option ℤ
  new_cycle : ℤ
  price_change : ℚ
  price_change_percent : ℚ
  event_type : String
deriving Repr, DecidableEq

/-- One entry of `OilPriceMonitor.price_history` (the `timestamp_str`
field is a pure rendering of `timestamp` and is dropped). -/
structure HistoryEntry where
  timestamp : ℚ
  price : ℚ
  cycle : ℤ
  event_type : String
deriving Repr, DecidableEq

/-- The mutable fields of `OilPriceMonitor` touched by `check_for_updates`. -/
structure MonitorState where
  change_threshold : ℚ
  current_price : Option OilPriceData
  last_change_event : Option PriceChangeEvent
  price_history : List HistoryEntry
  monitoring_active : Bool
deriving Repr, DecidableEq

/-- Python exceptions reachable from the monitoring code paths. -/
inductive PyError where
  | zeroDivision
  | parseError (msg : String)
deriving Repr, DecidableEq

/-- The entry built by `OilPriceMonitor._add_to_history`. -/
def history_entry (now : ℚ) (price_data : OilPriceData) (event_type : String) :
    HistoryEntry :=
  { timestamp := now, price := price_data.price, cycle := price_data.cycle,
    event_type := event_type }

/-- Model of `OilPriceMonitor._add_to_history`: append, then keep only the last 1000
entries (`self.price_history[-1000:]`) when the length exceeds 1000. -/
def add_to_history (h : List HistoryEntry) (now : ℚ) (price_data : OilPriceData)
    (event_type : String) : List HistoryEntry :=
  let h2 := h ++ [history_entry now price_data event_type]
  if h2.length > 1000 then h2.drop (h2.length - 1000) else h2

/-- Model of `OilPriceMonitor._detect_price_change`.  Mirrors the source control flow:
when a newer cycle arrives, `price_change_percent` is computed *before* the
threshold test, so a held price of exactly `0` raises `ZeroDivisionError`
(float division by zero in Python), modelled as `Except.error .zeroDivision`. -/
def detect_price_change (now : ℚ) (st : MonitorState)
    (new_price_data : OilPriceData) : Except PyError (Option PriceChangeEvent) :=
  match st.current_price with
  | none =>
      .ok (some { timestamp := now, old_price := none,
                  new_price := new_price_data.price, old_cycle := none,
                  new_cycle := new_price_data.cycle, price_change := 0,
                  price_change_percent := 0, event_type := "initial" })
  | some cur =>
      if new_price_data.cycle > cur.cycle then
        if cur.price = 0 then .error .zeroDivision
        else
          let price_change := new_price_data.price - cur.price
          let price_change_percent := price_change / cur.price * 100
          if |price_change| ≥ st.change_threshold then
            .ok (some { timestamp := now, old_price := some cur.price,
                        new_price := new_price_data.price,
                        old_cycle := some cur.cycle,
                        new_cycle := new_price_data.cycle,
                        price_change := price_change,
                        price_change_percent := price_change_percent,
                        event_type := "update" })
          else .ok none
      else .ok none

/-- Body of the `try` block of `OilPriceMonitor.check_for_updates`, given the
result `(has_changed, content)` of the fetch.  In Python, `if not content`
treats both `None` and the empty string as missing content.  `parse` stands
for `OilPriceParser.get_latest_price`; its failures propagate as `Except`
errors, as does the `ZeroDivisionError` of the detector. -/
def check_for_updates_inner (parse : String → Except PyError OilPriceData)
    (fetch_result : Bool × Option String) (now : ℚ) (st : MonitorState) :
    Except PyError (MonitorState × Option PriceChangeEvent) :=
  match fetch_result with
  | (false, _) => .ok (st, none)
  | (true, none) => .ok (st, none)
  | (true, some content) =>
      if content.isEmpty then .ok (st, none)
      else
        match parse content with
        | .error e => .error e
        | .ok new_price_data =>
            match detect_price_change now st new_price_data with
            | .error e => .error e
            | .ok (some change_event) =>
                .ok ({ st with
                        current_price := some new_price_data,
                        last_change_event := some change_event,
                        price_history := add_to_history st.price_history now
                          new_price_data change_event.event_type },
                     some change_event)
            | .ok none =>
                match st.current_price with
                | none =>
                    .ok ({ st with
                            current_price := some new_price_data,
                            price_history := add_to_history st.price_history now
                              new_price_data "update" }, none)
                | some cur =>
                    if new_price_data.cycle > cur.cycle then
                      .ok ({ st with
                              current_price := some new_price_data,
                              price_history := add_to_history st.price_history now
                                new_price_data "update" }, none)
                    else .ok (st, none)

/-- Model of `OilPriceMonitor.check_for_updates`: the surrounding
`except Exception: return None` turns every raised error into a no-event
result with the state untouched. -/
def check_for_updates (parse : String → Except PyError OilPriceData)
    (fetch_result : Bool × Option String) (now : ℚ) (st : MonitorState) :
    MonitorState × Option PriceChangeEvent :=
  match check_for_updates_inner parse fetch_result now st with
  | .ok r => r
  | .error _ => (st, none)

/-- Model of `OilPriceMonitor.get_current_price`. -/
def get_current_price (st : MonitorState) : Option OilPriceData :=
  st.current_price

/-- The mutable fields of `OilPriceHTTPClient` (`http_client.py`). -/
structure ClientState where
  last_content_hash : Option String
  last_response_time : Option ℚ
  last_etag : Option String
  last_modified : Option String
  consecutive_no_changes : Nat
  max_consecutive_no_changes : Nat
  base_polling_interval : ℤ
  relaxed_polling_interval : ℤ
  current_polling_interval : ℤ
deriving Repr, DecidableEq

/-- Model of `OilPriceHTTPClient.__init__` with a given base polling interval. -/
def mkClient (base_polling_interval : ℤ) : ClientState :=
  { last_content_hash := none, last_response_time := none, last_etag := none,
    last_modified := none, consecutive_no_changes := 0,
    max_consecutive_no_changes := 3,
    base_polling_interval := base_polling_interval,
    relaxed_polling_interval := base_polling_interval * 3,
    current_polling_interval := base_polling_interval }

/-- Python truthiness of an optional string: `None` and `""` are falsy. -/
def truthy : Option String → Bool
  | none => false
  | some s => !s.isEmpty

/-- Model of `OilPriceHTTPClient._should_use_conditional_request`. -/
def should_use_conditional_request (st : ClientState) : Bool :=
  truthy st.last_etag || truthy st.last_modified

/-- Model of `OilPriceHTTPClient._prepare_conditional_headers`.  The source attaches
the held ETag under `If-None-Match` and the held Last-Modified value under
the (non-standard) name `If-Modified-Not-Since`. -/
def prepare_conditional_headers (st : ClientState) : List (String × String) :=
  (if truthy st.last_etag then [("If-None-Match", st.last_etag.getD "")] else [])
    ++ (if truthy st.last_modified then
          [("If-Modified-Not-Since", st.last_modified.getD "")] else [])

/-- The extra headers `fetch_oil_prices` puts on the GET request. -/
def request_headers (use_conditional : Bool) (st : ClientState) :
    List (String × String) :=
  if use_conditional && should_use_conditional_request st then
    prepare_conditional_headers st
  else []

/-- What the network did on one `session.get` call: a response with a status,
body and optional validator headers, or one of the exception classes caught
in `fetch_oil_prices`. -/
inductive FetchOutcome where
  | response (status : Nat) (body : String) (etag_header : Option String)
      (last_modified_header : Option String)
  | timeout
  | connectionError (msg : String)
  | requestError (msg : String)
  | unexpectedError (msg : String)
deriving Repr, DecidableEq

/-- The slice of `response_info` the claims talk about. -/
structure ResponseInfo where
  status_code : Option Nat
  error : Option String
deriving Repr, DecidableEq

/-- Model of `OilPriceHTTPClient._update_content_metadata`. -/
def update_content_metadata (content_hash : String) (now : ℚ)
    (etag_header last_modified_header : Option String) (st : ClientState) :
    ClientState :=
  let st1 := { st with last_content_hash := some content_hash,
                       last_response_time := some now }
  let st2 := match etag_header with
    | some e => { st1 with last_etag := some e }
    | none => st1
  match last_modified_header with
  | some lm => { st2 with last_modified := some lm }
  | none => st2

/-- Model of `OilPriceHTTPClient._update_polling_interval`. -/
def update_polling_interval (content_changed : Bool) (st : ClientState) :
    ClientState :=
  if content_changed then
    { st with current_polling_interval := st.base_polling_interval,
              consecutive_no_changes := 0 }
  else
    let n := st.consecutive_no_changes + 1
    if n ≥ st.max_consecutive_no_changes then
      { st with consecutive_no_changes := n,
                current_polling_interval := st.relaxed_polling_interval }
    else { st with consecutive_no_changes := n }

/-- Model of `OilPriceHTTPClient.fetch_oil_prices`, as a function of the network
outcome.  `hashFn` models `_calculate_content_hash`.  Returns the new client
state together with `(has_changed, content, response_info)`.  Note the
source compares `content_hash != self.last_content_hash`, which is `True`
whenever no hash is held yet, and returns the body on a 200 response even
when the hash is unchanged. -/
def fetch_oil_prices (hashFn : String → String) (outcome : FetchOutcome)
    (now : ℚ) (st : ClientState) :
    ClientState × Bool × Option String × ResponseInfo :=
  match outcome with
  | .response status body etag_header last_modified_header =>
      if status = 304 then
        (update_polling_interval false st, false, none,
         { status_code := some 304, error := none })
      else if status = 200 then
        let content_hash := hashFn body
        if st.last_content_hash ≠ some content_hash then
          (update_polling_interval true
             (update_content_metadata content_hash now etag_header
                last_modified_header st),
           true, some body, { status_code := some 200, error := none })
        else
          (update_polling_interval false st, false, some body,
           { status_code := some 200, error := none })
      else
        (st, false, none,
         { status_code := some status,
           error := some ("HTTP " ++ toString status) })
  | .timeout =>
      (st, false, none, { status_code := none, error := some "timeout" })
  | .connectionError msg =>
      (st, false, none,
       { status_code := none, error := some ("connection_error: " ++ msg) })
  | .requestError msg =>
      (st, false, none,
       { status_code := none, error := some ("request_error: " ++ msg) })
  | .unexpectedError msg =>
      (st, false, none,
       { status_code := none, error := some ("unexpected_error: " ++ msg) })

/-- Model of `OilPriceHTTPClient.get_next_poll_time`. -/
def get_next_poll_time (st : ClientState) (now : ℚ) : ℚ :=
  match st.last_response_time with
  | none => now + (st.base_polling_interval : ℚ)
  | some t => t + (st.current_polling_interval : ℚ)

/-- The monitor together with its HTTP client, as composed by
`OilPriceMonitor.check_for_updates` calling `fetch_oil_prices`. -/
structure SystemState where
  client : ClientState
  monitor : MonitorState
deriving Repr, DecidableEq

/-- One full `check_for_updates` call including the fetch: run the client
fetch against the given network outcome, then the monitor logic on
`(has_changed, content)`. -/
def system_check_for_updates (hashFn : String → String)
    (parse : String → Except PyError OilPriceData) (outcome : FetchOutcome)
    (now : ℚ) (s : SystemState) : SystemState × Option PriceChangeEvent :=
  let fr := fetch_oil_prices hashFn outcome now s.client
  let r := check_for_updates parse (fr.2.1, fr.2.2.1) now s.monitor
  ({ client := fr.1, monitor := r.1 }, r.2)

/-- Whatever trimming does, `_add_to_history` leaves the new entry as the
final element of the history. -/
lemma add_to_history_append (h : List HistoryEntry) (now : ℚ)
    (price_data : OilPriceData) (event_type : String) :
    ∃ pre, add_to_history h now price_data event_type =
      pre ++ [history_entry now price_data event_type] := by
  simp only [add_to_history]
  by_cases hlen : (h ++ [history_entry now price_data event_type]).length > 1000
  · refine ⟨h.drop ((h ++ [history_entry now price_data event_type]).length - 1000), ?_⟩
    rw [if_pos hlen, List.drop_append_of_le_length]
    simp only [List.length_append, List.length_singleton] at hlen ⊢
    omega
  · exact ⟨h, by rw [if_neg hlen]⟩

/-- C1: with a held price of exactly 0 and a strictly newer incoming cycle,
`_detect_price_change` raises `ZeroDivisionError` (the percent-change
denominator) instead of returning "no event"; the exception is only caught
one level up, in `check_for_updates`, which then reports no event with the
state untouched. -/
theorem detect_price_change_zero_denominator_raises :
    detect_price_change 0
      { change_threshold := 1/100,
        current_price := some { price := 0, cycle := 1000, timestamp := none },
        last_change_event := none, price_history := [],
        monitoring_active := false }
      { price := 75, cycle := 1001, timestamp := none } =
        .error .zeroDivision
    ∧ check_for_updates
        (fun _ => .ok { price := 75, cycle := 1001, timestamp := none })
        (true, some "payload") 0
        { change_threshold := 1/100,
          current_price := some { price := 0, cycle := 1000, timestamp := none },
          last_change_event := none, price_history := [],
          monitoring_active := false } =
      ({ change_threshold := 1/100,
         current_price := some { price := 0, cycle := 1000, timestamp := none },
         last_change_event := none, price_history := [],
         monitoring_active := false }, none) := by
  constructor <;> rfl

/-- C8: with both validators held, the request carries the ETag under
`If-None-Match` but the Last-Modified value under the non-standard header
name `If-Modified-Not-Since`; no `If-Modified-Since` header is sent. -/
theorem conditional_headers_misnamed :
    request_headers true
      { mkClient 300 with
          last_etag := some "abc123",
          last_modified := some "Wed, 21 Oct 2015 07:28:00 GMT" } =
      [("If-None-Match", "abc123"),
       ("If-Modified-Not-Since", "Wed, 21 Oct 2015 07:28:00 GMT")]
    ∧ "If-Modified-Since" ∉
        (request_headers true
          { mkClient 300 with
              last_etag := some "abc123",
              last_modified := some "Wed, 21 Oct 2015 07:28:00 GMT" }).map
          Prod.fst := by
  constructor
  · rfl
  · decide

/-- C4: `check_for_updates` never propagates an exception: if the fetch
reported no change, or no content came back, the state is untouched and no
event is returned; and whenever the body of the `try` block raises (parse
failure or division by zero in the detector), the handler returns `none`
with `current_price`, `last_change_event` and `price_history` all
unchanged. -/
theorem check_for_updates_catches_failures
    (parse : String → Except PyError OilPriceData) (b : Bool)
    (c : Option String) (now : ℚ) (st : MonitorState) :
    (b = false → check_for_updates parse (b, c) now st = (st, none))
    ∧ (c = none → check_for_updates parse (b, c) now st = (st, none))
    ∧ (∀ e, check_for_updates_inner parse (b, c) now st = .error e →
        check_for_updates parse (b, c) now st = (st, none)) := by
  refine ⟨?_, ?_, ?_⟩
  · rintro rfl
    rfl
  · rintro rfl
    cases b <;> rfl
  · intro e he
    unfold check_for_updates
    rw [he]

/-- Witness for C4 at a concrete failing parse. -/
theorem check_for_updates_catches_failures_witness :
    check_for_updates (fun _ => .error (.parseError "no cycle field"))
      (true, some "x") 0
      { change_threshold := 1/100, current_price := none,
        last_change_event := none, price_history := [],
        monitoring_active := false } =
      ({ change_threshold := 1/100, current_price := none,
         last_change_event := none, price_history := [],
         monitoring_active := false }, none) :=
  (check_for_updates_catches_failures
    (fun _ => .error (.parseError "no cycle field")) true (some "x") 0
    { change_threshold := 1/100, current_price := none,
      last_change_event := none, price_history := [],
      monitoring_active := false }).2.2 (.parseError "no cycle field") rfl

/-- C5: an incoming point whose cycle does not strictly exceed the held
cycle produces no event and leaves the whole monitor state (current price,
last event, history) unchanged. -/
theorem stale_cycle_ignored (parse : String → Except PyError OilPriceData)
    (content : String) (now : ℚ) (st : MonitorState)
    (prev inc : OilPriceData)
    (hcur : st.current_price = some prev)
    (hcy : inc.cycle ≤ prev.cycle)
    (hparse : parse content = .ok inc)
    (hne : content.isEmpty = false) :
    check_for_updates parse (true, some content) now st = (st, none) := by
  simp [check_for_updates, check_for_updates_inner, detect_price_change, hne,
    hparse, hcur, not_lt.mpr hcy]

/-- Witness for C5: held `{75.00, 1001}`, incoming `{80.00, 1000}`. -/
theorem stale_cycle_ignored_witness :
    check_for_updates
      (fun _ => .ok { price := 80, cycle := 1000, timestamp := none })
      (true, some "x") 0
      { change_threshold := 1/100,
        current_price := some { price := 75, cycle := 1001, timestamp := none },
        last_change_event := none, price_history := [],
        monitoring_active := false } =
      ({ change_threshold := 1/100,
         current_price := some { price := 75, cycle := 1001, timestamp := none },
         last_change_event := none, price_history := [],
         monitoring_active := false }, none) :=
  stale_cycle_ignored
    (fun _ => .ok { price := 80, cycle := 1000, timestamp := none }) "x" 0 _
    { price := 75, cycle := 1001, timestamp := none }
    { price := 80, cycle := 1000, timestamp := none }
    rfl (by decide) rfl rfl

/-- C2: with a held nonzero price, a strictly newer cycle and a
sub-threshold magnitude, `check_for_updates` emits no event, yet
`get_current_price` afterwards reflects the incoming point and an entry of
kind `update` is appended to the history. -/
theorem subthreshold_advances_state
    (parse : String → Except PyError OilPriceData) (content : String)
    (now : ℚ) (st : MonitorState) (prev inc : OilPriceData)
    (hcur : st.current_price = some prev)
    (hzero : prev.price ≠ 0)
    (hcy : prev.cycle < inc.cycle)
    (hth : |inc.price - prev.price| < st.change_threshold)
    (hparse : parse content = .ok inc)
    (hne : content.isEmpty = false) :
    (check_for_updates parse (true, some content) now st).2 = none
    ∧ get_current_price (check_for_updates parse (true, some content) now st).1 =
        some inc
    ∧ ∃ pre, (check_for_updates parse (true, some content) now st).1.price_history =
        pre ++ [history_entry now inc "update"] := by
  have hmain : check_for_updates parse (true, some content) now st =
      ({ st with current_price := some inc,
                 price_history := add_to_history st.price_history now inc
                   "update" }, none) := by
    simp [check_for_updates, check_for_updates_inner, detect_price_change, hne,
      hparse, hcur, hzero, hcy, not_le.mpr hth]
  rw [hmain]
  exact ⟨rfl, rfl, add_to_history_append st.price_history now inc "update"⟩

/-- Witness for C2: held `{75.00, 1000}`, threshold `5.00`, incoming
`{75.50, 1001}`. -/
theorem subthreshold_advances_state_witness :
    (check_for_updates
      (fun _ => .ok { price := 151/2, cycle := 1001, timestamp := none })
      (true, some "x") 0
      { change_threshold := 5,
        current_price := some { price := 75, cycle := 1000, timestamp := none },
        last_change_event := none, price_history := [],
        monitoring_active := false }).2 = none
    ∧ get_current_price (check_for_updates
        (fun _ => .ok { price := 151/2, cycle := 1001, timestamp := none })
        (true, some "x") 0
        { change_threshold := 5,
          current_price := some { price := 75, cycle := 1000, timestamp := none },
          last_change_event := none, price_history := [],
          monitoring_active := false }).1 =
        some { price := 151/2, cycle := 1001, timestamp := none }
    ∧ ∃ pre, (check_for_updates
        (fun _ => .ok { price := 151/2, cycle := 1001, timestamp := none })
        (true, some "x") 0
        { change_threshold := 5,
          current_price := some { price := 75, cycle := 1000, timestamp := none },
          last_change_event := none, price_history := [],
          monitoring_active := false }).1.price_history =
        pre ++ [history_entry 0 { price := 151/2, cycle := 1001, timestamp := none }
          "update"] :=
  subthreshold_advances_state
    (fun _ => .ok { price := 151/2, cycle := 1001, timestamp := none }) "x" 0
    { change_threshold := 5,
      current_price := some { price := 75, cycle := 1000, timestamp := none },
      last_change_event := none, price_history := [],
      monitoring_active := false }
    { price := 75, cycle := 1000, timestamp := none }
    { price := 151/2, cycle := 1001, timestamp := none }
    rfl (by norm_num) (by decide) (by rw [abs_lt]; constructor <;> norm_num)
    rfl rfl

/-- The helper `_update_polling_interval` touches only the counter and the current
interval, never the stored content hash. -/
lemma update_polling_interval_hash (b : Bool) (st : ClientState) :
    (update_polling_interval b st).last_content_hash = st.last_content_hash := by
  cases b <;>
    by_cases h : st.consecutive_no_changes + 1 ≥ st.max_consecutive_no_changes <;>
    simp [update_polling_interval, h]

/-- The helper `_update_polling_interval` never touches `last_response_time`. -/
lemma update_polling_interval_lrt (b : Bool) (st : ClientState) :
    (update_polling_interval b st).last_response_time = st.last_response_time := by
  cases b <;>
    by_cases h : st.consecutive_no_changes + 1 ≥ st.max_consecutive_no_changes <;>
    simp [update_polling_interval, h]

/-- The helper `_update_content_metadata` stores the new fingerprint. -/
lemma update_content_metadata_hash (content_hash : String) (now : ℚ)
    (eh lmh : Option String) (st : ClientState) :
    (update_content_metadata content_hash now eh lmh st).last_content_hash =
      some content_hash := by
  cases eh <;> cases lmh <;> rfl

/-- The helper `_update_content_metadata` stamps `last_response_time` with the call time. -/
lemma update_content_metadata_lrt (content_hash : String) (now : ℚ)
    (eh lmh : Option String) (st : ClientState) :
    (update_content_metadata content_hash now eh lmh st).last_response_time =
      some now := by
  cases eh <;> cases lmh <;> rfl

/-- C3: the adaptive interval policy of `_update_polling_interval` (with the
`max_consecutive_no_changes = 3` set by the constructor): a change sample resets the
counter to 0 and the interval to the base interval within that same call; a
no-change sample increments the counter; reaching 3 switches the interval to
the relaxed interval, below 3 the interval is untouched, and once relaxed it
stays relaxed across further no-change samples; the constructor fixes the
relaxed interval at three times the base. -/
theorem adaptive_interval_policy (cs : ClientState)
    (hmax : cs.max_consecutive_no_changes = 3) :
    (update_polling_interval true cs).consecutive_no_changes = 0
    ∧ (update_polling_interval true cs).current_polling_interval =
        cs.base_polling_interval
    ∧ (update_polling_interval false cs).consecutive_no_changes =
        cs.consecutive_no_changes + 1
    ∧ (cs.consecutive_no_changes + 1 ≥ 3 →
        (update_polling_interval false cs).current_polling_interval =
          cs.relaxed_polling_interval)
    ∧ (cs.consecutive_no_changes + 1 < 3 →
        (update_polling_interval false cs).current_polling_interval =
          cs.current_polling_interval)
    ∧ (cs.current_polling_interval = cs.relaxed_polling_interval →
        (update_polling_interval false cs).current_polling_interval =
          cs.relaxed_polling_interval)
    ∧ (mkClient cs.base_polling_interval).relaxed_polling_interval =
        3 * cs.base_polling_interval
    ∧ (mkClient cs.base_polling_interval).max_consecutive_no_changes = 3 := by
  refine ⟨rfl, rfl, ?_, ?_, ?_, ?_, by simp [mkClient, Int.mul_comm], rfl⟩
  · by_cases h : cs.consecutive_no_changes + 1 ≥ cs.max_consecutive_no_changes <;>
      simp [update_polling_interval, h]
  · intro h
    simp [update_polling_interval, hmax, h]
  · intro h
    simp [update_polling_interval, hmax, Nat.not_le.mpr h]
  · intro h
    by_cases hge :
        cs.consecutive_no_changes + 1 ≥ cs.max_consecutive_no_changes <;>
      simp [update_polling_interval, hge, h]

/-- Witness for C3 at a client two no-change samples in: the third no-change
sample relaxes the interval, a change sample resets it. -/
theorem adaptive_interval_policy_witness :
    (update_polling_interval false
      { mkClient 300 with
          consecutive_no_changes := 2 }).current_polling_interval =
      ({ mkClient 300 with
          consecutive_no_changes := 2 } : ClientState).relaxed_polling_interval
    ∧ (update_polling_interval true
        { mkClient 300 with
            consecutive_no_changes := 2 }).current_polling_interval =
      ({ mkClient 300 with
          consecutive_no_changes := 2 } : ClientState).base_polling_interval :=
  ⟨(adaptive_interval_policy
      { mkClient 300 with consecutive_no_changes := 2 } rfl).2.2.2.1
      (by norm_num),
   (adaptive_interval_policy
      { mkClient 300 with consecutive_no_changes := 2 } rfl).2.1⟩

/-- The history entry produced by one append request. -/
def entry_of (it : ℚ × OilPriceData × String) : HistoryEntry :=
  history_entry it.1 it.2.1 it.2.2

/-- Running `_add_to_history` over a whole sequence of append requests,
starting from the history `h`. -/
def history_after (h : List HistoryEntry)
    (items : List (ℚ × OilPriceData × String)) : List HistoryEntry :=
  items.foldl (fun acc it => add_to_history acc it.1 it.2.1 it.2.2) h

/-- Closed form of a run of `_add_to_history`: starting from a history
within the cap, the result is the chronological tail of everything ever
appended, cut to the last 1000 entries. -/
lemma history_after_eq (items : List (ℚ × OilPriceData × String)) :
    ∀ h : List HistoryEntry, h.length ≤ 1000 →
      history_after h items =
        (h ++ items.map entry_of).drop ((h.length + items.length) - 1000) := by
  induction items with
  | nil =>
      intro h hh
      have h0 : history_after h [] = h := rfl
      rw [h0]
      simp only [List.map_nil, List.append_nil, List.length_nil, Nat.add_zero]
      rw [Nat.sub_eq_zero_of_le hh, List.drop_zero]
  | cons it rest ih =>
      intro h hh
      have he : history_entry it.1 it.2.1 it.2.2 = entry_of it := rfl
      have hstep : history_after h (it :: rest) =
          history_after (add_to_history h it.1 it.2.1 it.2.2) rest := rfl
      by_cases hc : h.length + 1 ≤ 1000
      · have hadd : add_to_history h it.1 it.2.1 it.2.2 = h ++ [entry_of it] := by
          simp only [add_to_history, he]
          rw [if_neg]
          simp only [List.length_append, List.length_singleton]
          omega
        have hlen2 : (h ++ [entry_of it]).length ≤ 1000 := by
          simp only [List.length_append, List.length_singleton]
          omega
        rw [hstep, hadd, ih _ hlen2]
        simp only [List.append_assoc, List.singleton_append, List.map_cons,
          List.length_append, List.length_singleton, List.length_cons,
          List.length_nil, Nat.zero_add]
        have hidx : h.length + 1 + rest.length - 1000 =
            h.length + (rest.length + 1) - 1000 := by omega
        rw [hidx]
      · have hlen : h.length = 1000 := by omega
        have hL : (h ++ [entry_of it]).length = 1001 := by
          simp only [List.length_append, List.length_singleton, hlen]
        have hadd : add_to_history h it.1 it.2.1 it.2.2 =
            (h ++ [entry_of it]).drop 1 := by
          simp only [add_to_history, he]
          rw [if_pos]
          · rw [hL]
          · rw [hL]
            omega
        have hlen3 : ((h ++ [entry_of it]).drop 1).length = 1000 := by
          rw [List.length_drop, hL]
        have hsw : (h ++ [entry_of it]).drop 1 ++ rest.map entry_of =
            ((h ++ [entry_of it]) ++ rest.map entry_of).drop 1 :=
          (List.drop_append_of_le_length (by rw [hL]; omega)).symm
        rw [hstep, hadd, ih _ (le_of_eq hlen3), hsw, hlen3, List.drop_drop]
        simp only [List.append_assoc, List.singleton_append, List.map_cons,
          List.length_cons, hlen]
        have hidx : 1 + (1000 + rest.length - 1000) =
            1000 + (rest.length + 1) - 1000 := by omega
        rw [hidx]

/-- C6: appending 1500 entries to a fresh history leaves exactly the 1000
most recently appended entries, in order, and after any prefix of the
appends the history length never exceeds 1000. -/
theorem history_cap (items : List (ℚ × OilPriceData × String))
    (hlen : items.length = 1500) :
    history_after [] items = (items.map entry_of).drop 500
    ∧ (history_after [] items).length = 1000
    ∧ ∀ pre suf, items = pre ++ suf →
        (history_after [] pre).length ≤ 1000 := by
  have hbase := history_after_eq items [] (by simp)
  simp only [List.nil_append, List.length_nil, Nat.zero_add, hlen] at hbase
  refine ⟨hbase, ?_, ?_⟩
  · rw [hbase]
    rw [List.length_drop, List.length_map, hlen]
  · intro pre suf hsplit
    have hpre := history_after_eq pre [] (by simp)
    simp only [List.nil_append, List.length_nil, Nat.zero_add] at hpre
    rw [hpre]
    simp only [List.length_drop, List.length_map]
    omega

/-- Witness for C6 on a concrete run of 1500 identical append requests. -/
theorem history_cap_witness :
    (history_after []
      (List.replicate 1500
        ((0 : ℚ), ({ price := 75, cycle := 1000, timestamp := none } :
          OilPriceData), "update"))).length = 1000 :=
  (history_cap
    (List.replicate 1500
      ((0 : ℚ), ({ price := 75, cycle := 1000, timestamp := none } :
        OilPriceData), "update")) (by rw [List.length_replicate])).2.1

/-- C7: every non-200/non-304 status and every caught network failure makes
`fetch_oil_prices` return `changed = false` with no payload and a classified
cause in `info.error`; nothing escapes the boundary. -/
theorem fetch_errors_classified (hashFn : String → String) (now : ℚ)
    (st : ClientState) :
    (∀ status body eh lmh, status ≠ 200 → status ≠ 304 →
      fetch_oil_prices hashFn (.response status body eh lmh) now st =
        (st, false, none,
         { status_code := some status,
           error := some ("HTTP " ++ toString status) }))
    ∧ fetch_oil_prices hashFn .timeout now st =
        (st, false, none, { status_code := none, error := some "timeout" })
    ∧ (∀ msg, fetch_oil_prices hashFn (.connectionError msg) now st =
        (st, false, none,
         { status_code := none, error := some ("connection_error: " ++ msg) }))
    ∧ (∀ msg, fetch_oil_prices hashFn (.requestError msg) now st =
        (st, false, none,
         { status_code := none, error := some ("request_error: " ++ msg) }))
    ∧ (∀ msg, fetch_oil_prices hashFn (.unexpectedError msg) now st =
        (st, false, none,
         { status_code := none,
           error := some ("unexpected_error: " ++ msg) })) := by
  refine ⟨?_, rfl, fun msg => rfl, fun msg => rfl, fun msg => rfl⟩
  intro status body eh lmh h200 h304
  simp [fetch_oil_prices, h200, h304]

/-- Witness for C7 at status 500. -/
theorem fetch_errors_classified_witness :
    fetch_oil_prices (fun s => s) (.response 500 "oops" none none) 0
      (mkClient 300) =
      (mkClient 300, false, none,
       { status_code := some 500, error := some "HTTP 500" }) :=
  (fetch_errors_classified (fun s => s) 0 (mkClient 300)).1 500 "oops" none none
    (by norm_num) (by norm_num)

/-- After any 200 response, the stored fingerprint is the hash of that
body: either it was just stored (changed branch) or it was already equal
(unchanged branch). -/
lemma fetch_200_sets_hash (hashFn : String → String) (body : String)
    (eh lmh : Option String) (now : ℚ) (st : ClientState) :
    (fetch_oil_prices hashFn (.response 200 body eh lmh) now
        st).1.last_content_hash = some (hashFn body) := by
  by_cases hch : st.last_content_hash = some (hashFn body)
  · simp [fetch_oil_prices, hch, update_polling_interval_hash]
  · simp [fetch_oil_prices, hch, update_polling_interval_hash,
      update_content_metadata_hash]

/-- C9: feeding the same payload body twice in a row (whatever the validator
headers), the second full `check_for_updates` cycle is a no-op: the content
fingerprint is unchanged, so it returns no event and leaves the monitor
state — current price, last event, history — exactly as the first call left
it. -/
theorem idempotent_second_fetch_noop (hashFn : String → String)
    (parse : String → Except PyError OilPriceData) (body : String)
    (eh lmh eh2 lmh2 : Option String) (now1 now2 : ℚ) (s : SystemState) :
    (system_check_for_updates hashFn parse (.response 200 body eh2 lmh2) now2
        (system_check_for_updates hashFn parse (.response 200 body eh lmh)
          now1 s).1).1.monitor =
      (system_check_for_updates hashFn parse (.response 200 body eh lmh) now1
        s).1.monitor
    ∧ (system_check_for_updates hashFn parse (.response 200 body eh2 lmh2)
        now2
        (system_check_for_updates hashFn parse (.response 200 body eh lmh)
          now1 s).1).2 = none := by
  set s1 := (system_check_for_updates hashFn parse (.response 200 body eh lmh)
    now1 s).1 with hs1
  have h1 : s1.client.last_content_hash = some (hashFn body) := by
    rw [hs1]
    simp only [system_check_for_updates]
    exact fetch_200_sets_hash hashFn body eh lmh now1 s.client
  have hf2 : fetch_oil_prices hashFn (.response 200 body eh2 lmh2) now2
      s1.client =
      (update_polling_interval false s1.client, false, some body,
       { status_code := some 200, error := none }) := by
    simp [fetch_oil_prices, h1]
  simp only [system_check_for_updates, hf2]
  exact ⟨rfl, rfl⟩

/-- C10: `last_response_time` moves only on a 200 response whose fingerprint
differs from the stored one (where it becomes the fetch time); a 304, an
unchanged 200, and every error path leave it unchanged; and whenever a last
response time is held, `get_next_poll_time` is that time plus the current
polling interval. -/
theorem last_response_time_only_on_change (hashFn : String → String)
    (now now2 : ℚ) (st : ClientState) :
    (∀ status body eh lmh, status ≠ 200 →
      (fetch_oil_prices hashFn (.response status body eh lmh) now
          st).1.last_response_time = st.last_response_time)
    ∧ (∀ body eh lmh, st.last_content_hash = some (hashFn body) →
        (fetch_oil_prices hashFn (.response 200 body eh lmh) now
            st).1.last_response_time = st.last_response_time)
    ∧ (∀ body eh lmh, st.last_content_hash ≠ some (hashFn body) →
        (fetch_oil_prices hashFn (.response 200 body eh lmh) now
            st).1.last_response_time = some now)
    ∧ (fetch_oil_prices hashFn .timeout now st).1.last_response_time =
        st.last_response_time
    ∧ (∀ msg, (fetch_oil_prices hashFn (.connectionError msg) now
        st).1.last_response_time = st.last_response_time)
    ∧ (∀ msg, (fetch_oil_prices hashFn (.requestError msg) now
        st).1.last_response_time = st.last_response_time)
    ∧ (∀ msg, (fetch_oil_prices hashFn (.unexpectedError msg) now
        st).1.last_response_time = st.last_response_time)
    ∧ (∀ r, st.last_response_time = some r →
        get_next_poll_time st now2 = r + (st.current_polling_interval : ℚ)) := by
  refine ⟨?_, ?_, ?_, rfl, fun msg => rfl, fun msg => rfl, fun msg => rfl, ?_⟩
  · intro status body eh lmh h200
    by_cases h304 : status = 304
    · simp [fetch_oil_prices, h304, update_polling_interval_lrt]
    · simp [fetch_oil_prices, h200, h304]
  · intro body eh lmh hch
    simp [fetch_oil_prices, hch, update_polling_interval_lrt]
  · intro body eh lmh hch
    simp [fetch_oil_prices, hch, update_polling_interval_lrt,
      update_content_metadata_lrt]
  · intro r hr
    simp [get_next_poll_time, hr]

/-- Witness for C10: a 304 after a changed fetch at time 7 keeps the next
poll time anchored at 7 plus the current interval. -/
theorem last_response_time_only_on_change_witness :
    (fetch_oil_prices (fun s => s) (.response 304 "" none none) 9
        { mkClient 300 with
            last_response_time := some 7 }).1.last_response_time =
      some 7
    ∧ get_next_poll_time
        { mkClient 300 with
            last_response_time := some 7 } 9 =
      7 + ((300 : ℤ) : ℚ) :=
  ⟨(last_response_time_only_on_change (fun s => s) 9 9
      { mkClient 300 with last_response_time := some 7 }).1 304 "" none none
      (by norm_num),
   (last_response_time_only_on_change (fun s => s) 9 9
      { mkClient 300 with last_response_time := some 7 }).2.2.2.2.2.2.2 7 rfl⟩
